import Mathlib

/-!
Verification of the EMNIST SVM lab notebook (lab_emnist_partial.ipynb).

The notebook downloads the EMNIST MATLAB files, loads them with
scipy.io.loadmat, removes the letters i/I, l/L, o/O, subsamples, merges the
digit and letter data (letters lumped under label 10), rescales pixel values
from 0..255 to -1..1 and trains an SVM.  The cells marked TODO are stubs to
be filled by the learner; where a claim depends on such a stub, the
corresponding definition below is modelled from the notebook markdown that
specifies it, and is marked as such in its doc comment.
-/

namespace EmnistLab

/-! Download cell: shallow embedding of download_file and of the driver code
that checks for the matlab directory and the two .mat files. -/

/-- Observable outcome of one call to download_file: whether the
already-exists message was printed, how many requests.get calls were made,
whether the destination was opened for writing, the destination file content
after the call (none means the file is absent), and whether the
ERROR-something-went-wrong message was printed. -/
structure DownloadResult where
  printedExists : Bool
  getCalls : Nat
  fileOpened : Bool
  dstContent : Option (List Nat)
  errorReported : Bool
  deriving Repr, DecidableEq

/-- Embedding of download_file(src_url, dst_fn).  dstContent0 is the content
of dst_fn before the call (none if the file does not exist), total_size the
integer parsed from the content-length header (0 when the header is absent),
and chunks the byte blocks yielded by r.iter_content(block_size).  The source
returns early when the destination exists; otherwise it writes every chunk,
sums the written lengths into wrote, and prints the error message exactly
when total_size != 0 and wrote != total_size.  No branch retries or raises:
the function always returns normally. -/
def download_file (dstContent0 : Option (List Nat)) (total_size : Nat)
    (chunks : List (List Nat)) : DownloadResult :=
  match dstContent0 with
  | some c =>
      { printedExists := true, getCalls := 0, fileOpened := false,
        dstContent := some c, errorReported := false }
  | none =>
      let wrote := (chunks.map List.length).sum
      { printedExists := false, getCalls := 1, fileOpened := true,
        dstContent := some chunks.flatten,
        errorReported := total_size != 0 && wrote != total_size }

/-- Value of the variable files_exists after the check block of the driver
cell, as a function of which paths exist.  The outer branch on the matlab
directory assigns the variable only in its else branch; inside the then
branch it is assigned only when both .mat files exist.  none models the
variable never having been assigned (the cell runs in a fresh kernel where
files_exists is unbound). -/
def files_exists (matlabDirExists digitsExists lettersExists : Bool) :
    Option Bool :=
  if matlabDirExists then
    (if digitsExists && lettersExists then some true else none)
  else some false

/-- Outcome of the driver cell after the check block: evaluating
`if not files_exists` with the variable unbound raises NameError; with the
variable bound it either skips or performs the download-and-unzip branch. -/
inductive DriverOutcome
  | nameError
  | skipDownload
  | runDownload
  deriving Repr, DecidableEq

/-- Embedding of the driver cell following the check block. -/
def driverCell (matlabDirExists digitsExists lettersExists : Bool) :
    DriverOutcome :=
  match files_exists matlabDirExists digitsExists lettersExists with
  | none => DriverOutcome.nameError
  | some true => DriverOutcome.skipDownload
  | some false => DriverOutcome.runDownload

/-! Loading cell: load_emnist extracts the training and test splits from the
dictionary returned by scipy.io.loadmat.  The nested indexing
mat.dataset[0][0][k][0][0][0] / [1] is modelled by a structure with a train
and a test split, each holding the image matrix (a list of pixel rows) and
the label array as stored in the file (a column matrix, one singleton row
per sample). -/

/-- One split (train or test) of the loadmat result. -/
structure MatSplit where
  images : List (List Nat)
  labels : List (List Int)
  deriving Repr, DecidableEq

/-- The loadmat result: the dataset struct with its train and test fields. -/
structure MatFile where
  train : MatSplit
  test : MatSplit
  deriving Repr, DecidableEq

/-- Embedding of numpy reshape(n) applied to a label matrix: it yields the
row-major flattening when the total element count is exactly n and errors
(none) otherwise. -/
def reshapeTo1d (a : List (List Int)) (n : Nat) : Option (List Int) :=
  if a.flatten.length = n then some a.flatten else none

/-- The list [Xtr, Xts, ytr, yts] returned by load_emnist. -/
structure EmnistData where
  Xtr : List (List Nat)
  Xts : List (List Nat)
  ytr : List Int
  yts : List Int
  deriving Repr, DecidableEq

/-- Embedding of load_emnist: Xtr and Xts are the image matrices of the two
splits; ytr is the train label column reshaped to length ntr = Xtr.shape[0]
and cast to int, and yts likewise with nts = Xts.shape[0].  none models the
numpy reshape error when a label count does not match. -/
def load_emnist (mat : MatFile) : Option EmnistData :=
  let Xtr := mat.train.images
  let ntr := Xtr.length
  match reshapeTo1d mat.train.labels ntr with
  | none => none
  | some ytr =>
    let Xts := mat.test.images
    let nts := Xts.length
    match reshapeTo1d mat.test.labels nts with
    | none => none
    | some yts => some ⟨Xtr, Xts, ytr, yts⟩

/-- Restatement of the spec sentence for the loader, to be compared with
load_emnist: the pure extraction of the four nested fields, with each label
array flattened to one dimension and cast to int, returned as
[Xtr, Xts, ytr, yts]. -/
def load_emnist_spec (mat : MatFile) : EmnistData :=
  ⟨mat.train.images, mat.test.images, mat.train.labels.flatten,
    mat.test.labels.flatten⟩

/-! Data pipeline.  The TODO 5, 6, 7 and 8 cells are stubs; the operations
below are modelled from the notebook markdown that specifies them. -/

/-- The remove_list constant bound in the TODO 5 cell. -/
def remove_list : List Int := [9, 12, 15]

/-- Modelled from the spec: the TODO 5 cell is a stub; the markdown instructs
to remove every sample i with y[i] equal to 9, 12 or 15, keeping X and y rows
together. -/
def removeLetters (X : List (List Nat)) (y : List Int) :
    List (List Nat) × List Int :=
  let keep := (X.zip y).filter (fun p => !(remove_list.contains p.2))
  (keep.map Prod.fst, keep.map Prod.snd)

/-- Modelled from the spec: the TODO 6 cell is a stub; the markdown instructs
to select random samples, the same index list selecting rows from X and y. -/
def subsample (X : List (List Nat)) (y : List Int) (idx : List Nat) :
    List (List Nat) × List Int :=
  let keep := idx.filterMap (fun i => (X.zip y).get? i)
  (keep.map Prod.fst, keep.map Prod.snd)

/-- Modelled from the spec: the TODO 7 cell is a stub; the markdown instructs
to stack the digit matrix over the letter matrix and build the label vector
with y[i] = ydig[i] for digit samples and y[i] = 10 for letter samples. -/
def mergeData (Xdig Xlet : List (List Nat)) (ydig : List Int) :
    List (List Nat) × List Int :=
  (Xdig ++ Xlet, ydig ++ List.replicate Xlet.length (10 : Int))

/-- Number of distinct label values occurring in a label vector. -/
def numClasses (y : List Int) : Nat := y.dedup.length

/-- Modelled from the spec: the TODO 8 cell is a stub; the markdown instructs
to rescale pixel values from 0..255 onto -1..1, the standard affine map. -/
def rescalePixel (x : ℚ) : ℚ := 2 * x / 255 - 1

/-- The rescale transform applied entrywise to a data matrix. -/
def rescaleX (X : List (List Nat)) : List (List ℚ) :=
  X.map (fun row => row.map (fun p => rescalePixel (p : ℚ)))

/-- The scaled training matrix of the TODO 8 cell. -/
def Xtr1 (Xtr : List (List Nat)) : List (List ℚ) := rescaleX Xtr

/-- The scaled test matrix of the TODO 8 cell. -/
def Xts1 (Xts : List (List Nat)) : List (List ℚ) := rescaleX Xts

/-! Stub cells.  The twenty-two cells marked TODO n are embedded statement by
statement in a small Python-statement syntax, so that what they contain and
what executing them can do is a checkable fact.  Comment text is irrelevant
to the claims and is not carried. -/

/-- Variable and module names occurring in the stub cells. -/
inductive PyName
  | remove_list | ntr_dig | ntr_let | nts_dig | nts_let
  | C_test | gam_test | nC | ngam | acc
  | svm | sklearn
  deriving Repr, DecidableEq

/-- The functions called anywhere in the notebook code, so that the absence
of I/O and of training calls in the stub cells is a statement about a syntax
that could express them. -/
inductive PyFn
  | np_array | np_zeros | len_fn
  | requests_get | open_fn | print_fn | loadmat_fn | plt_imshow
  | zipfile_extract
  | svm_SVC | svc_fit | gridSearchCV_fit
  deriving Repr, DecidableEq

/-- True for the functions that perform network or file I/O or print. -/
def fnEffectful : PyFn → Bool
  | PyFn.requests_get => true
  | PyFn.open_fn => true
  | PyFn.print_fn => true
  | PyFn.loadmat_fn => true
  | PyFn.plt_imshow => true
  | PyFn.zipfile_extract => true
  | _ => false

/-- True for the functions that fit a model. -/
def fnTrains : PyFn → Bool
  | PyFn.svc_fit => true
  | PyFn.gridSearchCV_fit => true
  | _ => false

/-- Expressions occurring on the right-hand side of the stub-cell
assignments: numeric literals, list literals, calls on variables and calls
on an integer-list literal. -/
inductive PyExpr
  | numLit (q : ℚ)
  | numListLit (xs : List ℚ)
  | callVars (fn : PyFn) (args : List PyName)
  | callIntList (fn : PyFn) (arg : List Int)
  deriving Repr, DecidableEq

/-- Statements of a notebook cell: a comment line, an assignment, a
from-import, or a bare expression statement. -/
inductive PyStmt
  | comment
  | assign (lhs : PyName) (rhs : PyExpr)
  | importFrom (srcMod : PyName) (name : PyName)
  | exprStmt (e : PyExpr)
  deriving Repr, DecidableEq

/-- The code cell containing the marker TODO n, one entry per non-blank
source line, in order.  Cells 1 to 22 are transcribed from the notebook;
other indices are empty. -/
def todoCell : Nat → List PyStmt
  | 1 => [PyStmt.comment, PyStmt.comment]
  | 2 => [PyStmt.comment, PyStmt.comment]
  | 3 => [PyStmt.comment]
  | 4 => [PyStmt.comment]
  | 5 => [PyStmt.assign PyName.remove_list
            (PyExpr.callIntList PyFn.np_array [9, 12, 15]),
          PyStmt.comment, PyStmt.comment, PyStmt.comment]
  | 6 => [PyStmt.comment,
          PyStmt.assign PyName.ntr_dig (PyExpr.numLit 5000),
          PyStmt.assign PyName.ntr_let (PyExpr.numLit 1000),
          PyStmt.assign PyName.nts_dig (PyExpr.numLit 5000),
          PyStmt.assign PyName.nts_let (PyExpr.numLit 1000),
          PyStmt.comment, PyStmt.comment, PyStmt.comment, PyStmt.comment,
          PyStmt.comment]
  | 7 => [PyStmt.comment, PyStmt.comment, PyStmt.comment]
  | 8 => [PyStmt.comment, PyStmt.comment, PyStmt.comment]
  | 9 => [PyStmt.importFrom PyName.sklearn PyName.svm,
          PyStmt.comment, PyStmt.comment]
  | 10 => [PyStmt.comment]
  | 11 => [PyStmt.comment]
  | 12 => [PyStmt.comment]
  | 13 => [PyStmt.comment]
  | 14 => [PyStmt.assign PyName.C_test
             (PyExpr.numListLit [1/10, 1, 10]),
           PyStmt.assign PyName.gam_test
             (PyExpr.numListLit [1/1000, 1/100, 1/10]),
           PyStmt.assign PyName.nC
             (PyExpr.callVars PyFn.len_fn [PyName.C_test]),
           PyStmt.assign PyName.ngam
             (PyExpr.callVars PyFn.len_fn [PyName.gam_test]),
           PyStmt.assign PyName.acc
             (PyExpr.callVars PyFn.np_zeros [PyName.nC, PyName.ngam]),
           PyStmt.comment]
  | 15 => [PyStmt.comment]
  | 16 => [PyStmt.comment]
  | 17 => [PyStmt.comment, PyStmt.comment, PyStmt.comment]
  | 18 => [PyStmt.comment, PyStmt.comment, PyStmt.comment, PyStmt.comment]
  | 19 => [PyStmt.comment, PyStmt.comment]
  | 20 => [PyStmt.comment]
  | 21 => [PyStmt.comment]
  | 22 => [PyStmt.comment]
  | _ => []

/-- The constant names the claim lists as the only bindings the stub cells
may make. -/
def allowedStubNames : List PyName :=
  [PyName.remove_list, PyName.ntr_dig, PyName.ntr_let, PyName.nts_dig,
   PyName.nts_let, PyName.C_test, PyName.gam_test, PyName.nC, PyName.ngam,
   PyName.acc]

/-- The notion of line the claim allows in a stub cell: a comment, or a
constant binding of one of the listed names to a side-effect-free constant
expression. -/
def isStubConstLine : PyStmt → Bool
  | PyStmt.comment => true
  | PyStmt.assign lhs rhs =>
      allowedStubNames.contains lhs &&
      (match rhs with
       | PyExpr.numLit _ => true
       | PyExpr.numListLit _ => true
       | PyExpr.callVars fn _ => !(fnEffectful fn) && !(fnTrains fn)
       | PyExpr.callIntList fn _ => !(fnEffectful fn) && !(fnTrains fn))
  | _ => false

/-- Whether executing a statement performs network or file I/O or prints. -/
def stmtEffectful : PyStmt → Bool
  | PyStmt.assign _ (PyExpr.callVars fn _) => fnEffectful fn
  | PyStmt.assign _ (PyExpr.callIntList fn _) => fnEffectful fn
  | PyStmt.exprStmt (PyExpr.callVars fn _) => fnEffectful fn
  | PyStmt.exprStmt (PyExpr.callIntList fn _) => fnEffectful fn
  | _ => false

/-- Whether executing a statement fits a model. -/
def stmtTrains : PyStmt → Bool
  | PyStmt.assign _ (PyExpr.callVars fn _) => fnTrains fn
  | PyStmt.assign _ (PyExpr.callIntList fn _) => fnTrains fn
  | PyStmt.exprStmt (PyExpr.callVars fn _) => fnTrains fn
  | PyStmt.exprStmt (PyExpr.callIntList fn _) => fnTrains fn
  | _ => false

/-- The names a statement binds in the interpreter state. -/
def stmtBinds : PyStmt → List PyName
  | PyStmt.assign lhs _ => [lhs]
  | PyStmt.importFrom _ nm => [nm]
  | _ => []

/-! Theorems. -/

/-- Claim C2: when the matlab directory exists but at least one of the two
.mat files is missing, the check block leaves files_exists unassigned, so the
driver cell raises NameError at the line that evaluates
`if not files_exists`, instead of downloading the missing files. -/
theorem driver_nameError (d l : Bool) (h : d = false ∨ l = false) :
    files_exists true d l = none ∧
      driverCell true d l = DriverOutcome.nameError := by
  revert h
  revert d l
  decide

/-- Witness for driver_nameError: the state where the matlab directory and
the letters file exist but the digits file is missing. -/
theorem driver_nameError_witness :
    (false = false ∨ true = false) ∧
      (files_exists true false true = none ∧
        driverCell true false true = DriverOutcome.nameError) :=
  ⟨Or.inl rfl, driver_nameError false true (Or.inl rfl)⟩

/-- Claim C3: download_file reports failure exactly when it actually
downloads (the destination was absent), the declared content-length is
non-zero and the byte count written differs from it; the call makes at most
one request, and on the downloading path it leaves whatever was written in
the destination file, error or not.  The embedding is a total function:
no branch raises or retries. -/
theorem download_error_iff (dst0 : Option (List Nat)) (ts : Nat)
    (chunks : List (List Nat)) :
    ((download_file dst0 ts chunks).errorReported = true ↔
        dst0 = none ∧ ts ≠ 0 ∧ (chunks.map List.length).sum ≠ ts)
    ∧ (download_file none ts chunks).dstContent = some chunks.flatten
    ∧ (download_file dst0 ts chunks).getCalls ≤ 1 := by
  refine ⟨?_, rfl, ?_⟩
  · cases dst0 with
    | some c => simp [download_file]
    | none => simp [download_file, Bool.and_eq_true, bne_iff_ne]
  · cases dst0 <;> simp [download_file]

/-- Claim C4: when the content-length header is absent, total_size parses to
0 and download_file never reports an error, whatever was written. -/
theorem download_no_contentLength_no_error (chunks : List (List Nat)) :
    (download_file none 0 chunks).errorReported = false := by
  simp [download_file]

/-- Claim C8: when the destination file already exists with content c,
download_file only prints the already-exists message: it makes no request,
opens no file, leaves the destination content unchanged, and reports no
error; consequently a second call with the same arguments returns the same
result. -/
theorem download_existing_noop (c : List Nat) (ts : Nat)
    (chunks : List (List Nat)) :
    download_file (some c) ts chunks =
      { printedExists := true, getCalls := 0, fileOpened := false,
        dstContent := some c, errorReported := false }
    ∧ download_file (download_file (some c) ts chunks).dstContent ts chunks =
        download_file (some c) ts chunks :=
  ⟨rfl, rfl⟩

/-- Helper: a successful reshape returns the flattening. -/
theorem reshapeTo1d_eq_flatten {a : List (List Int)} {n : Nat}
    {v : List Int} (h : reshapeTo1d a n = some v) : v = a.flatten := by
  unfold reshapeTo1d at h
  split at h
  · exact (Option.some.inj h).symm
  · exact absurd h (by simp)

/-- Helper: a successful reshape returns a vector of the requested length. -/
theorem reshapeTo1d_length {a : List (List Int)} {n : Nat}
    {v : List Int} (h : reshapeTo1d a n = some v) : v.length = n := by
  unfold reshapeTo1d at h
  split at h
  · cases Option.some.inj h
    assumption
  · exact absurd h (by simp)

/-- Helper: a successful load yields the two image matrices and the two
reshaped label vectors. -/
theorem load_emnist_some {mat : MatFile} {d : EmnistData}
    (h : load_emnist mat = some d) :
    d.Xtr = mat.train.images ∧ d.Xts = mat.test.images ∧
      reshapeTo1d mat.train.labels mat.train.images.length = some d.ytr ∧
      reshapeTo1d mat.test.labels mat.test.images.length = some d.yts := by
  simp only [load_emnist] at h
  split at h
  · exact absurd h (by simp)
  rename_i ytr htr
  split at h
  · exact absurd h (by simp)
  rename_i yts hts
  cases Option.some.inj h
  exact ⟨rfl, rfl, htr, hts⟩

/-- Claim C5: every dataset carries a label vector as long as its matrix has
rows: a successful load_emnist returns ytr with length Xtr.shape[0] and yts
with length Xts.shape[0], and letter removal, subsampling, merging (given a
consistent digit input) and rescaling each preserve len(y) = X.shape[0]. -/
theorem len_y_eq_rows (mat : MatFile) (d : EmnistData)
    (h : load_emnist mat = some d)
    (X : List (List Nat)) (y : List Int) (idx : List Nat)
    (Xdig Xlet : List (List Nat)) (ydig : List Int)
    (hlen : Xdig.length = ydig.length) :
    (d.ytr.length = d.Xtr.length ∧ d.yts.length = d.Xts.length)
    ∧ (removeLetters X y).2.length = (removeLetters X y).1.length
    ∧ (subsample X y idx).2.length = (subsample X y idx).1.length
    ∧ (mergeData Xdig Xlet ydig).2.length = (mergeData Xdig Xlet ydig).1.length
    ∧ (rescaleX X).length = X.length := by
  obtain ⟨hXtr, hXts, htr, hts⟩ := load_emnist_some h
  refine ⟨⟨?_, ?_⟩, ?_, ?_, ?_, ?_⟩
  · rw [hXtr]
    exact reshapeTo1d_length htr
  · rw [hXts]
    exact reshapeTo1d_length hts
  · simp [removeLetters]
  · simp [subsample]
  · simp [mergeData, hlen]
  · simp [rescaleX]

/-- Witness for len_y_eq_rows: a concrete two-sample loadmat result together
with concrete pipeline inputs. -/
theorem len_y_eq_rows_witness :
    (load_emnist ⟨⟨[[1], [2]], [[3], [4]]⟩, ⟨[[5]], [[6]]⟩⟩ =
        some ⟨[[1], [2]], [[5]], [3, 4], [6]⟩)
    ∧ List.length [[9], [8]] = List.length [(2 : Int), 7]
    ∧ (((⟨[[1], [2]], [[5]], [3, 4], [6]⟩ : EmnistData).ytr.length =
          (⟨[[1], [2]], [[5]], [3, 4], [6]⟩ : EmnistData).Xtr.length ∧
        (⟨[[1], [2]], [[5]], [3, 4], [6]⟩ : EmnistData).yts.length =
          (⟨[[1], [2]], [[5]], [3, 4], [6]⟩ : EmnistData).Xts.length)
      ∧ (removeLetters [[0]] [9]).2.length = (removeLetters [[0]] [9]).1.length
      ∧ (subsample [[0]] [9] [0]).2.length = (subsample [[0]] [9] [0]).1.length
      ∧ (mergeData [[9], [8]] [[7]] [2, 7]).2.length =
          (mergeData [[9], [8]] [[7]] [2, 7]).1.length
      ∧ (rescaleX [[0]]).length = List.length [[0]]) :=
  ⟨rfl, rfl,
    len_y_eq_rows ⟨⟨[[1], [2]], [[3], [4]]⟩, ⟨[[5]], [[6]]⟩⟩
      ⟨[[1], [2]], [[5]], [3, 4], [6]⟩ rfl [[0]] [9] [0]
      [[9], [8]] [[7]] [2, 7] rfl⟩

/-- Claim C6: load_emnist performs no parsing beyond extraction: whenever it
succeeds, its result is exactly the pure extraction of the four nested
fields of the loadmat dictionary, the label arrays flattened to one
dimension, returned as [Xtr, Xts, ytr, yts]. -/
theorem load_emnist_is_pure_extraction (mat : MatFile) (d : EmnistData)
    (h : load_emnist mat = some d) : d = load_emnist_spec mat := by
  obtain ⟨hXtr, hXts, htr, hts⟩ := load_emnist_some h
  have h1 := reshapeTo1d_eq_flatten htr
  have h2 := reshapeTo1d_eq_flatten hts
  cases d
  dsimp only at hXtr hXts h1 h2
  subst hXtr
  subst hXts
  subst h1
  subst h2
  rfl

/-- Witness for load_emnist_is_pure_extraction at a concrete loadmat
result. -/
theorem load_emnist_is_pure_extraction_witness :
    (load_emnist ⟨⟨[[1], [2]], [[3], [4]]⟩, ⟨[[5]], [[6]]⟩⟩ =
        some ⟨[[1], [2]], [[5]], [3, 4], [6]⟩)
    ∧ (⟨[[1], [2]], [[5]], [3, 4], [6]⟩ : EmnistData) =
        load_emnist_spec ⟨⟨[[1], [2]], [[3], [4]]⟩, ⟨[[5]], [[6]]⟩⟩ :=
  ⟨rfl, load_emnist_is_pure_extraction
    ⟨⟨[[1], [2]], [[3], [4]]⟩, ⟨[[5]], [[6]]⟩⟩
    ⟨[[1], [2]], [[5]], [3, 4], [6]⟩ rfl⟩

/-- Claim C1 is false as stated: the merged label vector is not binary.  With
digit labels [0, 1] and one letter sample, the merge produces the label
vector [0, 1, 10], which has three distinct classes, not exactly two: the
digit labels stay distinct and the letters form one extra class. -/
theorem mergeNotBinary_cex :
    numClasses (mergeData [[0], [0]] [[7]] [0, 1]).2 = 3 ∧
      numClasses (mergeData [[0], [0]] [[7]] [0, 1]).2 ≠ 2 := by
  decide

/-- Claim C1 (amended): the merge lumps all letters under the single label 10
while digit samples keep their own digit labels, so the label vector
determines digit versus non-digit — position i holds label 10 exactly when
sample i is a letter sample — but the problem stays multi-class (labels 0..9
and 10), not binary. -/
theorem merge_labels_amended (Xdig Xlet : List (List Nat)) (ydig : List Int)
    (hdig : ∀ v ∈ ydig, 0 ≤ v ∧ v < 10) :
    (mergeData Xdig Xlet ydig).2.length = ydig.length + Xlet.length
    ∧ (∀ i, i < ydig.length → (mergeData Xdig Xlet ydig).2[i]? = ydig[i]?)
    ∧ (∀ i, ydig.length ≤ i → i < ydig.length + Xlet.length →
        (mergeData Xdig Xlet ydig).2[i]? = some 10)
    ∧ (∀ i, i < ydig.length + Xlet.length →
        ((mergeData Xdig Xlet ydig).2[i]? = some 10 ↔ ydig.length ≤ i))
    ∧ (∀ v ∈ (mergeData Xdig Xlet ydig).2, (0 ≤ v ∧ v < 10) ∨ v = 10) := by
  simp only [mergeData]
  have hleft : ∀ i, i < ydig.length →
      (ydig ++ List.replicate Xlet.length (10 : Int))[i]? = ydig[i]? := by
    intro i hi
    exact List.getElem?_append_left hi
  have hright : ∀ i, ydig.length ≤ i → i < ydig.length + Xlet.length →
      (ydig ++ List.replicate Xlet.length (10 : Int))[i]? = some 10 := by
    intro i h1 h2
    rw [List.getElem?_append_right h1, List.getElem?_replicate]
    have : i - ydig.length < Xlet.length := by omega
    simp [this]
  refine ⟨by simp, hleft, hright, ?_, ?_⟩
  · intro i hi
    constructor
    · intro h10
      by_contra hlt
      push_neg at hlt
      rw [hleft i hlt] at h10
      have hmem : (10 : Int) ∈ ydig := List.getElem?_mem h10
      have := (hdig 10 hmem).2
      omega
    · intro h1
      exact hright i h1 hi
  · intro v hv
    rcases List.mem_append.mp hv with hv | hv
    · exact Or.inl (hdig v hv)
    · exact Or.inr (List.eq_of_mem_replicate hv)

/-- Witness for merge_labels_amended: two digit samples with labels 0 and 5
merged with one letter sample. -/
theorem merge_labels_amended_witness :
    (∀ v ∈ ([0, 5] : List Int), 0 ≤ v ∧ v < 10)
    ∧ ((mergeData [[1], [2]] [[3]] [0, 5]).2.length =
          List.length [(0 : Int), 5] + List.length [[3]]
      ∧ (∀ i, i < List.length [(0 : Int), 5] →
          (mergeData [[1], [2]] [[3]] [0, 5]).2[i]? = [(0 : Int), 5][i]?)
      ∧ (∀ i, List.length [(0 : Int), 5] ≤ i →
          i < List.length [(0 : Int), 5] + List.length [[3]] →
          (mergeData [[1], [2]] [[3]] [0, 5]).2[i]? = some 10)
      ∧ (∀ i, i < List.length [(0 : Int), 5] + List.length [[3]] →
          ((mergeData [[1], [2]] [[3]] [0, 5]).2[i]? = some 10 ↔
            List.length [(0 : Int), 5] ≤ i))
      ∧ (∀ v ∈ (mergeData [[1], [2]] [[3]] [0, 5]).2,
          (0 ≤ v ∧ v < 10) ∨ v = 10)) :=
  ⟨by decide, merge_labels_amended [[1], [2]] [[3]] [0, 5] (by decide)⟩

/-- Claim C7: the rescale step is the single monotone affine map sending 0
to -1 and 255 to 1; it keeps 0..255 inside -1..1, and the training and test
matrices are rescaled by that same entrywise transform. -/
theorem rescale_affine_monotone (x y : ℚ) (hx : 0 ≤ x) (hxy : x ≤ y)
    (hy : y ≤ 255) :
    rescalePixel 0 = -1 ∧ rescalePixel 255 = 1
    ∧ rescalePixel x = 2 / 255 * x + -1
    ∧ rescalePixel x ≤ rescalePixel y
    ∧ (-1 ≤ rescalePixel x ∧ rescalePixel y ≤ 1)
    ∧ (∀ X : List (List Nat), Xtr1 X = rescaleX X ∧ Xts1 X = rescaleX X) := by
  unfold rescalePixel
  refine ⟨by norm_num, by norm_num, by ring, by linarith, ⟨by linarith,
    by linarith⟩, fun X => ⟨rfl, rfl⟩⟩

/-- Witness for rescale_affine_monotone at the pixel values 51 and 204. -/
theorem rescale_affine_monotone_witness :
    ((0 : ℚ) ≤ 51 ∧ (51 : ℚ) ≤ 204 ∧ (204 : ℚ) ≤ 255)
    ∧ (rescalePixel 0 = -1 ∧ rescalePixel 255 = 1
      ∧ rescalePixel 51 = 2 / 255 * 51 + -1
      ∧ rescalePixel 51 ≤ rescalePixel 204
      ∧ (-1 ≤ rescalePixel 51 ∧ rescalePixel 204 ≤ 1)
      ∧ (∀ X : List (List Nat), Xtr1 X = rescaleX X ∧ Xts1 X = rescaleX X)) :=
  ⟨⟨by norm_num, by norm_num, by norm_num⟩,
    rescale_affine_monotone 51 204 (by norm_num) (by norm_num) (by norm_num)⟩

/-- Claim C9 is false as stated: not every statement of the TODO stub cells
is a comment or a literal constant binding to one of the listed names — the
TODO 9 cell contains the import statement `from sklearn import svm`. -/
theorem stubCells_not_only_const_bindings :
    ((List.range 22).all fun k =>
        (todoCell (k + 1)).all isStubConstLine) = false
    ∧ ((todoCell 9).contains
        (PyStmt.importFrom PyName.sklearn PyName.svm)) = true := by
  decide

/-- Claim C9 (amended): every statement of the TODO 1..22 stub cells is a
comment line, a constant binding to one of the listed names, or the one
statement importing svm from sklearn in the TODO 9 cell; no statement performs
network or file I/O or fits a model, and the only names bound are the listed
constants plus the module name svm. -/
theorem stubCells_amended :
    ((List.range 22).all fun k => (todoCell (k + 1)).all fun s =>
      (isStubConstLine s || s == PyStmt.importFrom PyName.sklearn PyName.svm)
      && !(stmtEffectful s) && !(stmtTrains s)
      && (stmtBinds s).all fun nm =>
           (PyName.svm :: allowedStubNames).contains nm) = true := by
  decide

end EmnistLab
